import Mathlib

/-!
Shallow embedding of the authentication / token-lifecycle core of the
IoT device-management backend (FastAPI + SQLAlchemy), together with
theorems settling the specification claims about it.

Conventions of the embedding:
* Database rows become Lean structures; the mutable store becomes explicit
  state passed in and out of each operation.
* `HTTPException(status_code, detail)` becomes `Except AppError _` with one
  `AppError` constructor per status code used by the code
  (401 unauthorized, 403 forbidden, 400 badRequest, 404 notFound,
  413 payloadTooLarge, 429 rateLimited); uncaught Python exceptions
  (`AttributeError`, `ValueError`) get their own constructors.
* Timestamps are `Int` seconds since an arbitrary epoch (the code compares
  UTC datetimes by subtraction only).
* bcrypt hashing (`passlib`) is modelled by a tagged deterministic string:
  it keeps exactly the property the code relies on — `verify_secret`
  succeeds on the stored hash of the original value and can fail on a
  tampered hash or a wrong value.
* JWTs (`python-jose`) are modelled as records carrying their claims, the
  signing key used, and whether they are expired; `decode_token` checks the
  key and expiry (signature verification), then the `token_type` tag.
* Security-event logging writes to a separate session and swallows every
  exception (see `SecurityLogger.log`), so it never affects the result or
  the primary state of an operation; the auth/device services are therefore
  embedded without their log calls, while `create_reading` keeps them to
  demonstrate non-propagation.
-/

namespace IoTSpec

/-- Roles of `app.db.models.UserRole`. -/
inductive UserRole
  | user
  | admin
deriving DecidableEq

/-- Device lifecycle states of `app.db.models.DeviceStatus`. -/
inductive DeviceStatus
  | active
  | blocked
  | deleted
deriving DecidableEq

/-- Outcome status of a security event (`app.db.models.SecurityEventStatus`). -/
inductive SecurityEventStatus
  | success
  | denied
  | error
deriving DecidableEq

/-- Error surfaced to the caller: one constructor per HTTP status code the
service layer raises, plus the uncaught Python exceptions reachable in
`update_device` (`AttributeError` from the shadowed `status` parameter) and
`get_category_or_raise` (`ValueError`). -/
inductive AppError
  | unauthorized (detail : String)
  | forbidden (detail : String)
  | badRequest (detail : String)
  | notFound (detail : String)
  | payloadTooLarge (detail : String)
  | rateLimited (detail : String)
  | attributeError (detail : String)
  | valueError (detail : String)
deriving DecidableEq

/-- Configuration (`app.core.config.Settings`): the fields the embedded
operations read. -/
structure Settings where
  jwt_secret_key : String
  jwt_refresh_secret_key : String
  jwt_device_secret_key : String
  access_token_exp_minutes : Nat
  refresh_token_exp_minutes : Nat
  device_token_exp_minutes : Nat
  data_payload_limit_bytes : Nat
  min_seconds_between_readings : Int
deriving DecidableEq

/-- `app.core.security.hash_secret`: salted bcrypt hash, modelled as a tagged
deterministic string (see the file header). -/
def hash_secret (value : String) : String :=
  "bcrypt$" ++ value

/-- `app.core.security.verify_secret`: bcrypt verification against a stored
hash. -/
def verify_secret (value : String) (hashed : String) : Bool :=
  hashed == "bcrypt$" ++ value

/-- Row of `app.db.models.User` (the fields the embedded services read). -/
structure User where
  id : Nat
  email : String
  password_hash : String
  role : UserRole
deriving DecidableEq

/-- Row of `app.db.models.Device`.  `token_version` starts at 1 in the DB
default; nothing below depends on that. -/
structure Device where
  id : String
  name : String
  category : String
  owner_id : Nat
  status : DeviceStatus
  secret_hash : String
  token_version : Int
  created_at : Int
  last_reading_at : Option Int
  deactivated_at : Option Int
deriving DecidableEq

/-- `db.get(Device, device_id)`. -/
def findDevice (devices : List Device) (device_id : String) : Option Device :=
  devices.find? (fun d => d.id == device_id)

/-- The category slugs of `app.services.device_profiles.DEVICE_CATEGORIES`. -/
def categorySlugs : List String :=
  ["weather_station", "indoor_thermometer", "ip_camera", "air_quality", "smart_lock"]

/-- `app.services.device_profiles.get_category_or_raise`: returns the profile
slug for a known category and raises `ValueError` otherwise. -/
def get_category_or_raise (slug : String) : Except AppError String :=
  if categorySlugs.contains slug then Except.ok slug
  else Except.error (AppError.valueError ("Unknown device category: " ++ slug))

/-- `DeviceService.deactivate_device` (logging omitted; the `requester`
argument is only logged): refuse deleted devices, otherwise block, stamp
deactivation time and bump `token_version`. -/
def deactivate_device (device : Device) (now : Int) : Except AppError Device :=
  if device.status = DeviceStatus.deleted then
    Except.error (AppError.badRequest "Urzadzenie juz usuniete.")
  else
    Except.ok { device with
      status := DeviceStatus.blocked,
      deactivated_at := some now,
      token_version := device.token_version + 1 }

/-- `DeviceService.rotate_secret` (logging omitted; `requester` only logged):
`fresh_secret` stands for the freshly generated `generate_device_secret()`
value; the plaintext is returned and only its hash stored. -/
def rotate_secret (device : Device) (fresh_secret : String) : String × Device :=
  (fresh_secret,
   { device with
      secret_hash := hash_secret fresh_secret,
      token_version := device.token_version + 1,
      status := DeviceStatus.active,
      deactivated_at := none,
      last_reading_at := none })

/-- `DeviceService.invalidate_tokens` (logging omitted; `requester` only
logged): bump `token_version`, nothing else. -/
def invalidate_tokens (device : Device) : Device :=
  { device with token_version := device.token_version + 1 }

/-- The `if category:` branch of `DeviceService.update_device`.  A category
change also seeds sample readings (`_seed_initial_readings`), which inserts
rows into the readings table and sets `last_reading_at` to the newest seeded
sample time; `seeded_last` stands for that externally generated timestamp
(the inserted rows live outside the `Device` row and are not needed here). -/
def applyCategory (device : Device) (category : Option String) (seeded_last : Int) :
    Except AppError Device :=
  match category with
  | none => Except.ok device
  | some c =>
    if c = "" then Except.ok device
    else
      match get_category_or_raise c with
      | Except.error e => Except.error e
      | Except.ok slug =>
        if device.category ≠ slug then
          Except.ok { device with category := slug, last_reading_at := some seeded_last }
        else Except.ok device

/-- The `if status:` branch of `DeviceService.update_device`.  Inside this
function the name `status` is the parameter (shadowing the imported FastAPI
module), so the `status == deleted` branch evaluates
`status.HTTP_400_BAD_REQUEST` on a `DeviceStatus` value and raises
`AttributeError` instead of the intended 400. -/
def applyStatus (device : Device) (status : Option DeviceStatus) (now : Int) :
    Except AppError Device :=
  match status with
  | none => Except.ok device
  | some st =>
    if st = DeviceStatus.deleted then
      Except.error (AppError.attributeError "DeviceStatus has no attribute HTTP_400_BAD_REQUEST")
    else
      let device := { device with status := st }
      if st = DeviceStatus.blocked then
        Except.ok { device with deactivated_at := some now }
      else if st = DeviceStatus.active then
        Except.ok { device with deactivated_at := none }
      else Except.ok device

/-- The `if name:` branch of `DeviceService.update_device`: an empty string
is falsy in Python and leaves the name unchanged. -/
def applyName (device : Device) (name : Option String) : Device :=
  match name with
  | some n => if n ≠ "" then { device with name := n } else device
  | none => device

/-- `DeviceService.update_device` (logging omitted).  The forbidden branch
also evaluates `status.HTTP_403_FORBIDDEN` on the shadowed parameter and so
raises `AttributeError` instead of the intended 403. -/
def update_device (device : Device) (requester : User) (name : Option String)
    (category : Option String) (status : Option DeviceStatus) (now : Int)
    (seeded_last : Int) : Except AppError Device :=
  if requester.role ≠ UserRole.admin ∧ device.owner_id ≠ requester.id then
    Except.error (AppError.attributeError "shadowed status has no attribute HTTP_403_FORBIDDEN")
  else
    match applyCategory (applyName device name) category seeded_last with
    | Except.error e => Except.error e
    | Except.ok d2 =>
      match applyStatus d2 status now with
      | Except.error e => Except.error e
      | Except.ok d3 => Except.ok d3

/-- Device-access JWT as seen by `get_device_from_token`: decoded claims
(`sub` and `token_version` may be absent), the signing key, and whether the
token is expired at verification time. -/
structure DeviceJwt where
  sub : Option String
  token_version : Option Int
  token_type : String
  key : String
  expired : Bool
deriving DecidableEq

/-- `app.core.security.create_device_access_token`: embeds the device id and
its current `token_version`, signs with the device key. -/
def create_device_access_token (sub : String) (tv : Int) (s : Settings) : DeviceJwt :=
  { sub := some sub,
    token_version := some tv,
    token_type := "device_access",
    key := s.jwt_device_secret_key,
    expired := false }

/-- The signing key `app.core.security.decode_token` selects for an expected
token type. -/
def key_for (expected : String) (s : Settings) : String :=
  if expected == "user_access" then s.jwt_secret_key
  else if expected == "user_refresh" then s.jwt_refresh_secret_key
  else s.jwt_device_secret_key

/-- `app.core.security.decode_token` on a device token: signature/expiry
check first (`TokenValidationError` on failure), then the `token_type`
tag. -/
def decode_device_token (t : DeviceJwt) (expected : String) (s : Settings) :
    Except String DeviceJwt :=
  if t.key != key_for expected s || t.expired then
    Except.error "Token jest nieprawidlowy lub wygasl."
  else if t.token_type != expected then
    Except.error "Token pochodzi z niewlasciwej sciezki autoryzacji."
  else Except.ok t

/-- `DeviceService.issue_device_token` (logging omitted): device lookup,
then status check, then secret verification, then mint. -/
def issue_device_token (s : Settings) (devices : List Device) (device_id : String)
    (device_secret : String) : Except AppError (DeviceJwt × Nat) :=
  match findDevice devices device_id with
  | none => Except.error (AppError.unauthorized "Niepoprawne dane urzadzenia.")
  | some device =>
    if device.status ≠ DeviceStatus.active then
      Except.error (AppError.forbidden "Urzadzenie jest nieaktywne.")
    else if !(verify_secret device_secret device.secret_hash) then
      Except.error (AppError.unauthorized "Niepoprawne dane urzadzenia.")
    else
      Except.ok (create_device_access_token device.id device.token_version s,
                 s.device_token_exp_minutes)

/-- `app.api.dependencies.get_device_from_token`: bearer credentials may be
absent; decode as device-access; require `sub` and `token_version` claims;
look up the device; status check (403) before generation check (401). -/
def get_device_from_token (s : Settings) (devices : List Device)
    (credentials : Option DeviceJwt) : Except AppError Device :=
  match credentials with
  | none => Except.error (AppError.unauthorized "Brak tokenu urzadzenia.")
  | some tok =>
    match decode_device_token tok "device_access" s with
    | Except.error e => Except.error (AppError.unauthorized e)
    | Except.ok payload =>
      match payload.sub, payload.token_version with
      | some device_id, some token_version =>
        match findDevice devices device_id with
        | none => Except.error (AppError.unauthorized "Urzadzenie nie istnieje.")
        | some device =>
          if device.status ≠ DeviceStatus.active then
            Except.error (AppError.forbidden "Urzadzenie jest zablokowane.")
          else if device.token_version ≠ token_version then
            Except.error (AppError.unauthorized "Token urzadzenia jest uniewazniony.")
          else Except.ok device
      | _, _ => Except.error (AppError.unauthorized "Nieprawidlowy token urzadzenia.")

/-- User-audience JWT as seen by `AuthService`: decoded claims, the signing
key and whether it is expired at verification time.  System-minted user
tokens always carry `str(user.id)` as subject, so `sub` is a `Nat` here. -/
structure UserJwt where
  sub : Nat
  jti : String
  token_type : String
  key : String
  expired : Bool
deriving DecidableEq

/-- The serialized (signed) form of a user token, as hashed into the refresh
ledger by `hash_secret(refresh_token)`. -/
def UserJwt.encode (t : UserJwt) : String :=
  t.token_type ++ "." ++ toString t.sub ++ "." ++ t.jti ++ "." ++ t.key

/-- `app.core.security.decode_token` on a user token. -/
def decode_user_token (t : UserJwt) (expected : String) (s : Settings) :
    Except String UserJwt :=
  if t.key != key_for expected s || t.expired then
    Except.error "Token jest nieprawidlowy lub wygasl."
  else if t.token_type != expected then
    Except.error "Token pochodzi z niewlasciwej sciezki autoryzacji."
  else Except.ok t

/-- `app.core.security.create_user_access_token`: `jti` stands for the fresh
`uuid4().hex`. -/
def create_user_access_token (sub : Nat) (jti : String) (s : Settings) : UserJwt :=
  { sub := sub, jti := jti, token_type := "user_access",
    key := s.jwt_secret_key, expired := false }

/-- `app.core.security.create_user_refresh_token`. -/
def create_user_refresh_token (sub : Nat) (jti : String) (s : Settings) : UserJwt :=
  { sub := sub, jti := jti, token_type := "user_refresh",
    key := s.jwt_refresh_secret_key, expired := false }

/-- Row of `app.db.models.RefreshToken`.  The table has a unique constraint
on `(user_id, token_jti)` (`uq_refresh_user_token`). -/
structure RefreshTokenRec where
  user_id : Nat
  token_jti : String
  token_hash : String
  expires_at : Int
  revoked : Bool
deriving DecidableEq

/-- The `(user_id, token_jti)` unique constraint of the `refresh_tokens`
table, as a predicate on a store state. -/
def uniqueJti (l : List RefreshTokenRec) : Prop :=
  l.Pairwise (fun a b => ¬(a.user_id = b.user_id ∧ a.token_jti = b.token_jti))

instance (l : List RefreshTokenRec) : Decidable (uniqueJti l) := by
  unfold uniqueJti
  infer_instance

/-- The persistent store the auth service touches: the `users` and
`refresh_tokens` tables. -/
structure AuthStore where
  users : List User
  refresh_tokens : List RefreshTokenRec
deriving DecidableEq

/-- `db.get(User, user_id)`. -/
def findUser (st : AuthStore) (uid : Nat) : Option User :=
  st.users.find? (fun u => u.id == uid)

/-- The selection filter of `AuthService.refresh`: same user, same jti, not
revoked. -/
def isActiveFor (uid : Nat) (jti : String) (r : RefreshTokenRec) : Bool :=
  r.user_id == uid && r.token_jti == jti && !r.revoked

/-- `entry.revoked = True` on the row returned by `.first()`: flip `revoked`
on the first row matching the filter, leaving the rest unchanged. -/
def revokeFirst (l : List RefreshTokenRec) (p : RefreshTokenRec → Bool) :
    List RefreshTokenRec :=
  match l with
  | [] => []
  | r :: rs => if p r then { r with revoked := true } :: rs else r :: revokeFirst rs p

/-- `TokenPairResponse` of `app.schemas.auth`. -/
structure TokenPairResponse where
  access_token : UserJwt
  refresh_token : UserJwt
  expires_in_minutes : Nat
deriving DecidableEq

/-- `AuthService.create_token_pair` (logging omitted): mint both tokens with
fresh jtis, persist a ledger row holding the refresh token's hash and the
expiry copied from its claim. -/
def create_token_pair (s : Settings) (st : AuthStore) (user : User) (now : Int)
    (access_jti refresh_jti : String) : TokenPairResponse × AuthStore :=
  let access_token := create_user_access_token user.id access_jti s
  let refresh_token := create_user_refresh_token user.id refresh_jti s
  let entry : RefreshTokenRec :=
    { user_id := user.id,
      token_jti := refresh_jti,
      token_hash := hash_secret refresh_token.encode,
      expires_at := now + (s.refresh_token_exp_minutes : Int) * 60,
      revoked := false }
  ({ access_token := access_token,
     refresh_token := refresh_token,
     expires_in_minutes := s.access_token_exp_minutes },
   { st with refresh_tokens := st.refresh_tokens ++ [entry] })

/-- `AuthService.refresh` (logging omitted): decode as user-refresh (401 on
failure); look up the first non-revoked ledger row for `(sub, jti)` (401
"inactive" if absent, store untouched); if expired, revoke it and fail 401
"expired"; if the presented token's hash does not verify against the stored
hash, revoke it and fail 401 "rejected"; otherwise revoke it, load the user
(404 if the row is gone) and mint a fresh pair.  `access_jti` / `refresh_jti`
stand for the fresh `uuid4().hex` values of the minted pair. -/
def refresh (s : Settings) (st : AuthStore) (tok : UserJwt) (now : Int)
    (access_jti refresh_jti : String) :
    Except AppError TokenPairResponse × AuthStore :=
  match decode_user_token tok "user_refresh" s with
  | Except.error e => (Except.error (AppError.unauthorized e), st)
  | Except.ok _ =>
    match st.refresh_tokens.find? (isActiveFor tok.sub tok.jti) with
    | none =>
      (Except.error (AppError.unauthorized "Token odswiezania jest nieaktywny."), st)
    | some entry =>
      if entry.expires_at < now then
        (Except.error (AppError.unauthorized "Token odswiezania wygasl."),
         { st with refresh_tokens :=
             revokeFirst st.refresh_tokens (isActiveFor tok.sub tok.jti) })
      else if !(verify_secret tok.encode entry.token_hash) then
        (Except.error (AppError.unauthorized "Token odswiezania odrzucony."),
         { st with refresh_tokens :=
             revokeFirst st.refresh_tokens (isActiveFor tok.sub tok.jti) })
      else
        let st1 : AuthStore :=
          { st with refresh_tokens :=
              revokeFirst st.refresh_tokens (isActiveFor tok.sub tok.jti) }
        match findUser st1 tok.sub with
        | none => (Except.error (AppError.notFound "Uzytkownik nie istnieje."), st1)
        | some user =>
          let (pair, st2) := create_token_pair s st1 user now access_jti refresh_jti
          (Except.ok pair, st2)

/-- `AuthService.logout` (logging omitted): decode as user-refresh (400 on
failure); 403 if the subject is not the caller; look up the row for
`(user.id, jti)` with NO filter on `revoked`; if found, mark it revoked and
succeed; only if no row at all exists fail 400 "already logged out". -/
def logout (s : Settings) (st : AuthStore) (tok : UserJwt) (user : User) :
    Except AppError Unit × AuthStore :=
  match decode_user_token tok "user_refresh" s with
  | Except.error e => (Except.error (AppError.badRequest e), st)
  | Except.ok _ =>
    if tok.sub ≠ user.id then
      (Except.error (AppError.forbidden "Token nie nalezy do uzytkownika."), st)
    else
      match st.refresh_tokens.find?
          (fun r => r.user_id == user.id && r.token_jti == tok.jti) with
      | some _ =>
        let toks := revokeFirst st.refresh_tokens
          (fun r => r.user_id == user.id && r.token_jti == tok.jti)
        (Except.ok (), { st with refresh_tokens := toks })
      | none =>
        (Except.error (AppError.badRequest "Token zostal juz wylogowany."), st)

/-- Row of `app.db.models.SecurityEvent` (without the server-generated id and
timestamp). -/
structure SecurityEvent where
  actor_type : String
  actor_id : Option String
  event_type : String
  status : SecurityEventStatus
  detail : Option String
deriving DecidableEq

/-- The body of `SecurityLogger.log` before the `except` clause: open a fresh
session, add the entry and commit.  `behavior` models the underlying store
(session factory plus commit), which may raise an arbitrary exception —
modelled by returning `Except.error` — or commit to an arbitrary new
state. -/
def log_unguarded (behavior : List SecurityEvent → Except String (List SecurityEvent))
    (events : List SecurityEvent) (entry : SecurityEvent) :
    Except String (List SecurityEvent) :=
  behavior (events ++ [entry])

/-- `app.services.logging_service.SecurityLogger.log`: run the body and
swallow every exception, leaving the log unchanged on failure.  The result
type is a plain event list — no error can escape to the caller. -/
def SecurityLogger.log (behavior : List SecurityEvent → Except String (List SecurityEvent))
    (events : List SecurityEvent) (entry : SecurityEvent) : List SecurityEvent :=
  match log_unguarded behavior events entry with
  | Except.ok committed => committed
  | Except.error _ => events

/-- A JSON value as stored in a reading payload (the flat fragment the code
manipulates). -/
inductive JsonVal
  | str (s : String)
  | num (n : Int)
  | bool (b : Bool)
  | null
deriving DecidableEq

/-- A reading payload: a JSON object, i.e. an ordered key/value list as in a
Python dict. -/
abbrev Payload := List (String × JsonVal)

/-- `json.dumps(value)` for a single value (payload keys and string values
in this system contain no characters needing JSON escapes). -/
def JsonVal.dump : JsonVal → String
  | JsonVal.str s => "\"" ++ s ++ "\""
  | JsonVal.num n => toString n
  | JsonVal.bool b => if b then "true" else "false"
  | JsonVal.null => "null"

/-- The comma-joined members of the object, with the compact separators
`(",", ":")` used by `_payload_size`. -/
def dumpPairs : List (String × JsonVal) → String
  | [] => ""
  | [(k, v)] => "\"" ++ k ++ "\":" ++ JsonVal.dump v
  | (k, v) :: rest => "\"" ++ k ++ "\":" ++ JsonVal.dump v ++ "," ++ dumpPairs rest

/-- `json.dumps(payload, separators=(",", ":"), ensure_ascii=False)`. -/
def json_dumps (p : Payload) : String :=
  "\x7b" ++ dumpPairs p ++ "\x7d"

/-- `ReadingService._payload_size`: UTF-8 byte length of the compact JSON
serialization. -/
def payload_size_of (p : Payload) : Nat :=
  (json_dumps p).utf8ByteSize

/-- `payload.get(key)` on a dict. -/
def payloadGet (p : Payload) (k : String) : Option JsonVal :=
  (p.find? (fun kv => kv.fst == k)).map Prod.snd

/-- `payload[key] = value` on a dict: replace in place if present, else
append. -/
def payloadSet (p : Payload) (k : String) (v : JsonVal) : Payload :=
  if p.any (fun kv => kv.fst == k) then
    p.map (fun kv => if kv.fst == k then (k, v) else kv)
  else p ++ [(k, v)]

/-- Row of `app.db.models.Reading`. -/
structure Reading where
  device_id : String
  device_timestamp : Option Int
  received_at : Int
  payload : Payload
  payload_size : Nat
deriving DecidableEq

/-- `ReadingService._is_simulated`: the payload carries
`"__simulated__": true`. -/
def is_simulated_reading (r : Reading) : Bool :=
  payloadGet r.payload "__simulated__" == some (JsonVal.bool true)

/-- The query `filter(device_id).order_by(received_at.desc()).first()`:
the most recent persisted reading of the device. -/
def latestReading (readings : List Reading) (device_id : String) : Option Reading :=
  (readings.filter (fun r => r.device_id == device_id)).foldl
    (fun acc r =>
      match acc with
      | none => some r
      | some best => if r.received_at > best.received_at then some r else acc)
    none

instance {ε α : Type} [DecidableEq ε] [DecidableEq α] : DecidableEq (Except ε α) :=
  fun x y =>
  match x, y with
  | Except.ok a, Except.ok b =>
    if h : a = b then isTrue (by rw [h])
    else isFalse (fun hc => h (Except.ok.inj hc))
  | Except.error a, Except.error b =>
    if h : a = b then isTrue (by rw [h])
    else isFalse (fun hc => h (Except.error.inj hc))
  | Except.ok _, Except.error _ => isFalse (fun hc => Except.noConfusion hc)
  | Except.error _, Except.ok _ => isFalse (fun hc => Except.noConfusion hc)

/-- Everything `ReadingService.create_reading` returns or mutates: the call
result, the device row (`last_reading_at`), the readings table and the
security-event log. -/
structure ReadingOutcome where
  result : Except AppError Reading
  device : Device
  readings : List Reading
  events : List SecurityEvent
deriving DecidableEq

/-- `ReadingService.create_reading`, log calls included.  Order of checks:
payload size first (413 before any persistence), then — unless `force` —
the rate limit: if the elapsed time since `last_reading_at` is below the
configured minimum AND the most recent persisted reading is not simulated
(or there is none), fail 429.  Otherwise persist the reading (marking it
simulated if requested) and update `last_reading_at`. -/
def create_reading (s : Settings)
    (behavior : List SecurityEvent → Except String (List SecurityEvent))
    (device : Device) (readings : List Reading) (events : List SecurityEvent)
    (payload : Payload) (device_timestamp : Option Int) (received_at : Option Int)
    (force : Bool) (mark_simulated : Bool) (clock_now : Int) : ReadingOutcome :=
  let size := payload_size_of payload
  if size > s.data_payload_limit_bytes then
    { result := Except.error (AppError.payloadTooLarge "Ladunek przekracza limit."),
      device := device, readings := readings,
      events := SecurityLogger.log behavior events
        { actor_type := "device", actor_id := some device.id,
          event_type := "reading_reject", status := SecurityEventStatus.denied,
          detail := some "Ladunek przekracza limit." } }
  else
    let now := received_at.getD clock_now
    let rate_hit :=
      !force &&
      (match device.last_reading_at with
       | none => false
       | some last =>
         if now - last < s.min_seconds_between_readings then
           match latestReading readings device.id with
           | none => true
           | some r => !(is_simulated_reading r)
         else false)
    if rate_hit then
      { result := Except.error (AppError.rateLimited "Limit czestotliwosci przekroczony."),
        device := device, readings := readings,
        events := SecurityLogger.log behavior events
          { actor_type := "device", actor_id := some device.id,
            event_type := "reading_rate_limit", status := SecurityEventStatus.denied,
            detail := some "Przekroczony limit czestotliwosci." } }
    else
      let final_payload :=
        if mark_simulated then payloadSet payload "__simulated__" (JsonVal.bool true)
        else payload
      let reading : Reading :=
        { device_id := device.id, device_timestamp := device_timestamp,
          received_at := now, payload := final_payload, payload_size := size }
      { result := Except.ok reading,
        device := { device with last_reading_at := some now },
        readings := readings ++ [reading],
        events := SecurityLogger.log behavior events
          { actor_type := "device", actor_id := some device.id,
            event_type := "reading_accept", status := SecurityEventStatus.success,
            detail := none } }

/-! Concrete fixtures used by witnesses and counterexamples. -/

/-- A concrete configuration. -/
def exSettings : Settings :=
  { jwt_secret_key := "key-access",
    jwt_refresh_secret_key := "key-refresh",
    jwt_device_secret_key := "key-device",
    access_token_exp_minutes := 15,
    refresh_token_exp_minutes := 10080,
    device_token_exp_minutes := 5,
    data_payload_limit_bytes := 20,
    min_seconds_between_readings := 30 }

/-- A concrete user (owner of the example device). -/
def exUser : User :=
  { id := 1, email := "a@x.com", password_hash := hash_secret "Passw0rd!",
    role := UserRole.user }

/-- A concrete active device owned by `exUser`. -/
def exDevice : Device :=
  { id := "dev-1", name := "Sensor", category := "weather_station",
    owner_id := 1, status := DeviceStatus.active,
    secret_hash := hash_secret "s3cret", token_version := 1,
    created_at := 0, last_reading_at := some 5, deactivated_at := none }

/-- The same device, blocked. -/
def exBlockedDevice : Device :=
  { exDevice with status := DeviceStatus.blocked, deactivated_at := some 3 }

/-- A concrete refresh token for `exUser`, signed with the refresh key. -/
def exRefreshJwt : UserJwt :=
  create_user_refresh_token 1 "j1" exSettings

/-- The ledger row matching `exRefreshJwt`: correct hash, far-future expiry,
not revoked. -/
def exEntry : RefreshTokenRec :=
  { user_id := 1, token_jti := "j1",
    token_hash := hash_secret exRefreshJwt.encode,
    expires_at := 1000, revoked := false }

/-- A store holding `exUser` and the active ledger row for `exRefreshJwt`. -/
def exAuthStore : AuthStore :=
  { users := [exUser], refresh_tokens := [exEntry] }

/-- The same ledger row, already revoked. -/
def exRevokedEntry : RefreshTokenRec :=
  { exEntry with revoked := true }

/-- A store where the ledger row for `exRefreshJwt` is valid and active but
the user row is gone. -/
def exOrphanStore : AuthStore :=
  { users := [], refresh_tokens := [exEntry] }

/-- A small payload: serializes to 7 bytes. -/
def exSmallPayload : Payload := [("t", JsonVal.num 1)]

/-- An oversized payload for the 20-byte example limit. -/
def exBigPayload : Payload :=
  [("data", JsonVal.str "0123456789012345678901234567890123456789")]

/-- A persisted simulated reading of the example device. -/
def exSimReading : Reading :=
  { device_id := "dev-1", device_timestamp := none, received_at := 5,
    payload := [("t", JsonVal.num 1), ("__simulated__", JsonVal.bool true)],
    payload_size := 28 }

/-! Claim theorems. -/

/-- C3 counterexample: `update_device` that sets the status to `blocked`
succeeds but leaves `token_version` at its old value 1 instead of bumping it
to 2, refuting the claim that every blocking operation increments it. -/
theorem C3_counterexample :
    update_device exDevice exUser none none (some DeviceStatus.blocked) 10 0
      = Except.ok { exDevice with status := DeviceStatus.blocked, deactivated_at := some 10 } ∧
    ({ exDevice with status := DeviceStatus.blocked, deactivated_at := some 10 }).token_version
      = exDevice.token_version ∧
    ¬ ({ exDevice with status := DeviceStatus.blocked, deactivated_at := some 10 }).token_version
      = exDevice.token_version + 1 := by
  decide

theorem applyCategory_token_version (device : Device) (category : Option String)
    (seeded_last : Int) (d : Device)
    (h : applyCategory device category seeded_last = Except.ok d) :
    d.token_version = device.token_version := by
  unfold applyCategory get_category_or_raise at h
  repeat' split at h
  all_goals first
    | (cases h; rfl)
    | exact Except.noConfusion h

theorem applyStatus_token_version (device : Device) (status : Option DeviceStatus)
    (now : Int) (d : Device)
    (h : applyStatus device status now = Except.ok d) :
    d.token_version = device.token_version := by
  unfold applyStatus at h
  repeat' split at h
  all_goals first
    | (cases h; rfl)
    | exact Except.noConfusion h

/-- C3 (amended): `deactivate_device`, `rotate_secret` and
`invalidate_tokens` each increment `token_version` by exactly one, but
`update_device` never changes `token_version` — in particular not when it
sets the status to `blocked`. -/
theorem C3_token_version_discipline (device : Device) :
    (∀ now d, deactivate_device device now = Except.ok d →
      d.token_version = device.token_version + 1) ∧
    (∀ fresh_secret, (rotate_secret device fresh_secret).2.token_version
      = device.token_version + 1) ∧
    ((invalidate_tokens device).token_version = device.token_version + 1) ∧
    (∀ requester name category status now seeded_last d,
      update_device device requester name category status now seeded_last
        = Except.ok d →
      d.token_version = device.token_version) := by
  refine ⟨?_, fun _ => rfl, rfl, ?_⟩
  · intro now d h
    unfold deactivate_device at h
    split at h
    · exact Except.noConfusion h
    · cases h; rfl
  · intro requester name category status now seeded_last d h
    unfold update_device at h
    split at h
    · exact Except.noConfusion h
    · split at h
      · exact Except.noConfusion h
      · next d2 hc =>
        split at h
        · exact Except.noConfusion h
        · next d3 hs =>
          have h1 := applyStatus_token_version d2 status now d3 hs
          have h2 := applyCategory_token_version _ category seeded_last d2 hc
          cases h
          have h3 : (applyName device name).token_version = device.token_version := by
            unfold applyName
            cases name with
            | none => rfl
            | some n =>
              dsimp only
              split <;> rfl
          rw [h1, h2, h3]

/-- C3 witness: blocking `exDevice` through `deactivate_device` bumps
`token_version` from 1 to 2. -/
theorem C3_token_version_discipline_witness :
    ∃ d, deactivate_device exDevice 10 = Except.ok d
      ∧ d.token_version = exDevice.token_version + 1 := by
  obtain ⟨d, hd⟩ : ∃ d, deactivate_device exDevice 10 = Except.ok d := ⟨_, rfl⟩
  exact ⟨d, hd, (C3_token_version_discipline exDevice).1 10 d hd⟩

/-- C7 counterexample: `rotate_secret` also clears `last_reading_at`, a
field outside the claimed frame of secret_hash, token_version, status and
deactivated_at. -/
theorem C7_counterexample :
    exDevice.last_reading_at = some 5 ∧
    (rotate_secret exDevice "new-secret").2.last_reading_at = none ∧
    ¬ (rotate_secret exDevice "new-secret").2.last_reading_at
        = exDevice.last_reading_at := by
  decide

/-- C7 (amended): `rotate_secret` returns the fresh plaintext, stores its
hash, bumps `token_version` by one, resets the status to active, clears the
deactivation timestamp AND clears `last_reading_at`; every other field
(`id`, `name`, `category`, `owner_id`, `created_at`) is unchanged. -/
theorem C7_rotate_secret_frame (device : Device) (fresh_secret : String) :
    (rotate_secret device fresh_secret).1 = fresh_secret ∧
    (rotate_secret device fresh_secret).2.secret_hash = hash_secret fresh_secret ∧
    (rotate_secret device fresh_secret).2.token_version = device.token_version + 1 ∧
    (rotate_secret device fresh_secret).2.status = DeviceStatus.active ∧
    (rotate_secret device fresh_secret).2.deactivated_at = none ∧
    (rotate_secret device fresh_secret).2.last_reading_at = none ∧
    (rotate_secret device fresh_secret).2.id = device.id ∧
    (rotate_secret device fresh_secret).2.name = device.name ∧
    (rotate_secret device fresh_secret).2.category = device.category ∧
    (rotate_secret device fresh_secret).2.owner_id = device.owner_id ∧
    (rotate_secret device fresh_secret).2.created_at = device.created_at :=
  ⟨rfl, rfl, rfl, rfl, rfl, rfl, rfl, rfl, rfl, rfl, rfl⟩

/-- C8 counterexample: a secret that fails hash verification presented for a
blocked device yields `Forbidden`, not `Unauthorized` — the status check
runs before the secret check. -/
theorem C8_counterexample :
    verify_secret "wrong" exBlockedDevice.secret_hash = false ∧
    issue_device_token exSettings [exBlockedDevice] "dev-1" "wrong"
      = Except.error (AppError.forbidden "Urzadzenie jest nieaktywne.") := by
  decide

/-- C8 (amended): `issue_device_token` checks in the order device lookup
(`Unauthorized` if missing), then status (`Forbidden` if not active,
regardless of the presented secret), then secret verification
(`Unauthorized` on mismatch, only reachable for an active device); on
success it mints a token embedding the current `token_version`. -/
theorem C8_issue_device_token_order (s : Settings) (devices : List Device)
    (device_id device_secret : String) :
    (findDevice devices device_id = none →
      issue_device_token s devices device_id device_secret
        = Except.error (AppError.unauthorized "Niepoprawne dane urzadzenia.")) ∧
    (∀ d, findDevice devices device_id = some d → d.status ≠ DeviceStatus.active →
      issue_device_token s devices device_id device_secret
        = Except.error (AppError.forbidden "Urzadzenie jest nieaktywne.")) ∧
    (∀ d, findDevice devices device_id = some d → d.status = DeviceStatus.active →
      verify_secret device_secret d.secret_hash = false →
      issue_device_token s devices device_id device_secret
        = Except.error (AppError.unauthorized "Niepoprawne dane urzadzenia.")) ∧
    (∀ d, findDevice devices device_id = some d → d.status = DeviceStatus.active →
      verify_secret device_secret d.secret_hash = true →
      issue_device_token s devices device_id device_secret
        = Except.ok (create_device_access_token d.id d.token_version s,
                     s.device_token_exp_minutes)) := by
  refine ⟨?_, ?_, ?_, ?_⟩
  · intro h
    unfold issue_device_token
    rw [h]
  · intro d hf hs
    unfold issue_device_token
    rw [hf]
    simp [hs]
  · intro d hf hs hv
    unfold issue_device_token
    rw [hf]
    simp [hs, hv]
  · intro d hf hs hv
    unfold issue_device_token
    rw [hf]
    simp [hs, hv]

/-- C8 witness: a wrong secret for the active `exDevice` is rejected with
`Unauthorized`. -/
theorem C8_issue_device_token_order_witness :
    issue_device_token exSettings [exDevice] "dev-1" "wrong"
      = Except.error (AppError.unauthorized "Niepoprawne dane urzadzenia.") :=
  (C8_issue_device_token_order exSettings [exDevice] "dev-1" "wrong").2.2.1
    exDevice (by decide) (by decide) (by decide)

theorem key_for_device (s : Settings) :
    key_for "device_access" s = s.jwt_device_secret_key := rfl

theorem decode_minted_device_token (s : Settings) (device_id : String) (tv : Int) :
    decode_device_token (create_device_access_token device_id tv s) "device_access" s
      = Except.ok (create_device_access_token device_id tv s) := by
  unfold decode_device_token create_device_access_token key_for
  simp

theorem decode_device_token_ok (t p : DeviceJwt) (e : String) (s : Settings)
    (h : decode_device_token t e s = Except.ok p) : p = t := by
  unfold decode_device_token at h
  split at h
  · exact Except.noConfusion h
  · split at h
    · exact Except.noConfusion h
    · exact (Except.ok.inj h).symm

/-- C2: a device-access token embedding `token_version = v` authorizes only
when `v` equals the device's current `token_version` and the device is
active.  (1) For an active device, any generation mismatch fails
`Unauthorized`; (2) success forces the embedded generation to equal the
current one and the status to be active; (3) in particular a token minted by
`issue_device_token` is rejected `Unauthorized` after `invalidate_tokens`
bumps the device, even though status and secret are unchanged. -/
theorem C2_device_token_generation (s : Settings) (devices : List Device) :
    (∀ tok device_id v d,
      decode_device_token tok "device_access" s = Except.ok tok →
      tok.sub = some device_id → tok.token_version = some v →
      findDevice devices device_id = some d →
      d.status = DeviceStatus.active → d.token_version ≠ v →
      get_device_from_token s devices (some tok)
        = Except.error (AppError.unauthorized "Token urzadzenia jest uniewazniony.")) ∧
    (∀ tok dev, get_device_from_token s devices (some tok) = Except.ok dev →
      ∃ device_id v, tok.sub = some device_id ∧ tok.token_version = some v ∧
        findDevice devices device_id = some dev ∧
        dev.token_version = v ∧ dev.status = DeviceStatus.active) ∧
    (∀ d0 secret tok ttl,
      issue_device_token s [d0] d0.id secret = Except.ok (tok, ttl) →
      get_device_from_token s [invalidate_tokens d0] (some tok)
        = Except.error (AppError.unauthorized "Token urzadzenia jest uniewazniony.")) := by
  refine ⟨?_, ?_, ?_⟩
  · intro tok device_id v d hdec hsub hv hfind hact hne
    simp only [get_device_from_token, hdec, hsub, hv, hfind]
    simp [hact, hne]
  · intro tok dev h
    unfold get_device_from_token at h
    dsimp only at h
    split at h
    · exact Except.noConfusion h
    · next payload hdec =>
      have hpay := decode_device_token_ok tok payload "device_access" s hdec
      subst hpay
      split at h
      · next device_id token_version hsub hv =>
        split at h
        · exact Except.noConfusion h
        · next d hfind =>
          split at h
          · exact Except.noConfusion h
          · next hact =>
            split at h
            · exact Except.noConfusion h
            · next hver =>
              cases h
              exact ⟨device_id, token_version, hsub, hv, hfind,
                not_not.mp hver, not_not.mp hact⟩
      · exact Except.noConfusion h
  · intro d0 secret tok ttl h
    unfold issue_device_token at h
    have hfind0 : findDevice [d0] d0.id = some d0 := by
      unfold findDevice
      simp [List.find?]
    rw [hfind0] at h
    dsimp only at h
    by_cases hact : d0.status = DeviceStatus.active
    · rw [if_neg (by simp [hact])] at h
      by_cases hver : verify_secret secret d0.secret_hash
      · rw [if_neg (by simp [hver])] at h
        have htok : tok = create_device_access_token d0.id d0.token_version s :=
          ((Prod.mk.injEq _ _ _ _).mp (Except.ok.inj h).symm).1
        subst htok
        have hfind1 : findDevice [invalidate_tokens d0] d0.id
            = some (invalidate_tokens d0) := by
          unfold findDevice invalidate_tokens
          simp [List.find?]
        have hact1 : (invalidate_tokens d0).status = DeviceStatus.active := hact
        have hne : (invalidate_tokens d0).token_version ≠ d0.token_version := by
          unfold invalidate_tokens
          dsimp only
          omega
        unfold get_device_from_token
        dsimp only
        rw [decode_minted_device_token]
        dsimp only [create_device_access_token]
        rw [hfind1]
        simp [hact1, hne]
      · rw [if_pos (by simp [hver])] at h
        exact Except.noConfusion h
    · rw [if_pos hact] at h
      exact Except.noConfusion h

/-- C2 witness: a token for `exDevice` embedding `token_version = 5` (the
device's current version is 1) is rejected as invalidated even though the
device is active. -/
theorem C2_device_token_generation_witness :
    get_device_from_token exSettings [exDevice]
      (some (create_device_access_token "dev-1" 5 exSettings))
      = Except.error (AppError.unauthorized "Token urzadzenia jest uniewazniony.") :=
  (C2_device_token_generation exSettings [exDevice]).1
    (create_device_access_token "dev-1" 5 exSettings) "dev-1" 5 exDevice
    (by decide) rfl rfl (by decide) (by decide) (by decide)

/-- C4: an oversized payload is rejected `PayloadTooLarge` before any
persistence — the readings table and the device row (in particular
`last_reading_at`) are unchanged — for every rate state, every `force`
value and every timing. -/
theorem C4_payload_size_checked_first (s : Settings)
    (behavior : List SecurityEvent → Except String (List SecurityEvent))
    (device : Device) (readings : List Reading) (events : List SecurityEvent)
    (payload : Payload) (device_timestamp received_at : Option Int)
    (force mark_simulated : Bool) (clock_now : Int)
    (h : payload_size_of payload > s.data_payload_limit_bytes) :
    (create_reading s behavior device readings events payload device_timestamp
        received_at force mark_simulated clock_now).result
      = Except.error (AppError.payloadTooLarge "Ladunek przekracza limit.") ∧
    (create_reading s behavior device readings events payload device_timestamp
        received_at force mark_simulated clock_now).readings = readings ∧
    (create_reading s behavior device readings events payload device_timestamp
        received_at force mark_simulated clock_now).device = device := by
  refine ⟨?_, ?_, ?_⟩ <;>
    (unfold create_reading; dsimp only; rw [if_pos h])

/-- C4 witness: the 52-byte example payload is rejected even with
`force = true` and no previous reading in the way. -/
theorem C4_payload_size_checked_first_witness :
    payload_size_of exBigPayload > exSettings.data_payload_limit_bytes ∧
    (create_reading exSettings (fun l => Except.ok l) exDevice [] [] exBigPayload
        none none true false 100).result
      = Except.error (AppError.payloadTooLarge "Ladunek przekracza limit.") :=
  ⟨by decide,
   (C4_payload_size_checked_first exSettings (fun l => Except.ok l) exDevice [] []
      exBigPayload none none true false 100 (by decide)).1⟩

/-- C5: for a non-`force` submission whose payload is within the size limit,
arriving within the minimum interval of the device's last accepted reading,
and with `r` the most recent persisted reading of the device: the call is
rejected `RateLimited` exactly when `r` is not simulated, and accepted
exactly when `r` is simulated. -/
theorem C5_simulated_carveout (s : Settings)
    (behavior : List SecurityEvent → Except String (List SecurityEvent))
    (device : Device) (readings : List Reading) (events : List SecurityEvent)
    (payload : Payload) (device_timestamp : Option Int) (mark_simulated : Bool)
    (clock_now now last : Int) (r : Reading)
    (hsize : ¬ payload_size_of payload > s.data_payload_limit_bytes)
    (hlast : device.last_reading_at = some last)
    (hwithin : now - last < s.min_seconds_between_readings)
    (hlatest : latestReading readings device.id = some r) :
    ((create_reading s behavior device readings events payload device_timestamp
        (some now) false mark_simulated clock_now).result
      = Except.error (AppError.rateLimited "Limit czestotliwosci przekroczony.")
      ↔ is_simulated_reading r = false) ∧
    ((∃ rd, (create_reading s behavior device readings events payload
        device_timestamp (some now) false mark_simulated clock_now).result
        = Except.ok rd)
      ↔ is_simulated_reading r = true) := by
  unfold create_reading
  dsimp only [Option.getD]
  rw [if_neg hsize, hlast]
  simp only [Bool.not_false, Bool.true_and]
  rw [if_pos hwithin, hlatest]
  cases hsim : is_simulated_reading r with
  | false => simp [hsim]
  | true => simp [hsim]

/-- C5 witness: with the most recent persisted reading simulated, a real
reading arriving 2 seconds later (interval 30) is accepted. -/
theorem C5_simulated_carveout_witness :
    ∃ rd, (create_reading exSettings (fun l => Except.ok l) exDevice [exSimReading]
        [] exSmallPayload none (some 7) false false 7).result = Except.ok rd :=
  (C5_simulated_carveout exSettings (fun l => Except.ok l) exDevice [exSimReading]
      [] exSmallPayload none false 7 7 5 exSimReading
      (by decide) (by decide) (by decide) (by decide)).2.mpr (by decide)

/-- C10: the security logger is total and non-propagating: whatever the
underlying store does, `log` returns normally — on a store failure it
leaves the event log unchanged, on success it returns the committed log —
and the result, device row and readings table produced by the primary
operation `create_reading` do not depend on the log store's behavior at
all. -/
theorem C10_logging_never_propagates :
    (∀ behavior events entry e,
        log_unguarded behavior events entry = Except.error e →
        SecurityLogger.log behavior events entry = events) ∧
    (∀ behavior events entry committed,
        log_unguarded behavior events entry = Except.ok committed →
        SecurityLogger.log behavior events entry = committed) ∧
    (∀ s b1 b2 device readings events payload device_timestamp received_at
        force mark_simulated clock_now,
      (create_reading s b1 device readings events payload device_timestamp
          received_at force mark_simulated clock_now).result
        = (create_reading s b2 device readings events payload device_timestamp
            received_at force mark_simulated clock_now).result ∧
      (create_reading s b1 device readings events payload device_timestamp
          received_at force mark_simulated clock_now).device
        = (create_reading s b2 device readings events payload device_timestamp
            received_at force mark_simulated clock_now).device ∧
      (create_reading s b1 device readings events payload device_timestamp
          received_at force mark_simulated clock_now).readings
        = (create_reading s b2 device readings events payload device_timestamp
            received_at force mark_simulated clock_now).readings) := by
  refine ⟨?_, ?_, ?_⟩
  · intro behavior events entry e h
    unfold SecurityLogger.log
    rw [h]
  · intro behavior events entry committed h
    unfold SecurityLogger.log
    rw [h]
  · intro s b1 b2 device readings events payload device_timestamp received_at
      force mark_simulated clock_now
    unfold create_reading
    dsimp only
    split
    · exact ⟨rfl, rfl, rfl⟩
    · split
      · exact ⟨rfl, rfl, rfl⟩
      · exact ⟨rfl, rfl, rfl⟩

/-! Helper lemmas about the refresh ledger. -/

theorem revokeFirst_length (l : List RefreshTokenRec) (p : RefreshTokenRec → Bool) :
    (revokeFirst l p).length = l.length := by
  induction l with
  | nil => rfl
  | cons r rs ih =>
    unfold revokeFirst
    split
    · simp
    · simp [ih]

theorem isActiveFor_eq_true (uid : Nat) (jti : String) (x : RefreshTokenRec) :
    isActiveFor uid jti x = true
      ↔ x.user_id = uid ∧ x.token_jti = jti ∧ x.revoked = false := by
  unfold isActiveFor
  simp [and_assoc]

/-- Under the `(user_id, token_jti)` unique constraint, after `revokeFirst`
with any predicate `P` that selects only rows keyed `(uid, jti)` and covers
every active such row, no active row for `(uid, jti)` remains. -/
theorem revokeFirst_find_active_none (uid : Nat) (jti : String)
    (P : RefreshTokenRec → Bool)
    (hkey : ∀ x, P x = true → x.user_id = uid ∧ x.token_jti = jti)
    (himp : ∀ x, isActiveFor uid jti x = true → P x = true)
    (l : List RefreshTokenRec) (hu : uniqueJti l) :
    (revokeFirst l P).find? (isActiveFor uid jti) = none := by
  induction l with
  | nil => rfl
  | cons r rs ih =>
    have hu2 := List.pairwise_cons.mp hu
    unfold revokeFirst
    by_cases hP : P r = true
    · rw [if_pos hP]
      have h1 : isActiveFor uid jti { r with revoked := true } = false := by
        unfold isActiveFor
        simp
      rw [List.find?_cons_of_neg _ (by simp [h1])]
      rw [List.find?_eq_none]
      intro x hx hax
      have hxkey := (isActiveFor_eq_true uid jti x).mp hax
      have hrkey := hkey r hP
      exact hu2.1 x hx ⟨hrkey.1.trans hxkey.1.symm, hrkey.2.trans hxkey.2.1.symm⟩
    · rw [if_neg hP]
      have h2 : isActiveFor uid jti r = false := by
        cases hr : isActiveFor uid jti r
        · rfl
        · exact absurd (himp r hr) hP
      rw [List.find?_cons_of_neg _ (by simp [h2])]
      exact ih hu2.2

theorem find?_append_none {α : Type} (p : α → Bool) (l1 l2 : List α)
    (h : l1.find? p = none) : (l1 ++ l2).find? p = l2.find? p := by
  induction l1 with
  | nil => rfl
  | cons a l ih =>
    have ha : p a = false := by
      cases hpa : p a
      · rfl
      · rw [List.find?_cons_of_pos _ hpa] at h
        exact Option.noConfusion h
    rw [List.find?_cons_of_neg _ (by simp [ha])] at h
    rw [List.cons_append, List.find?_cons_of_neg _ (by simp [ha])]
    exact ih h

theorem findUser_set_tokens (st : AuthStore) (X : List RefreshTokenRec) (uid : Nat) :
    findUser { st with refresh_tokens := X } uid = findUser st uid := rfl

/-- C1: refresh rotation is branch-exact and single-use.  With a token that
decodes as user-refresh and a store satisfying the `(user_id, token_jti)`
unique constraint: (1) no active ledger row → 401 "inactive" with the store
untouched; (2) active row but expired → 401 "expired", the row is revoked
(no active row remains, no row added or removed, users untouced);
(3) active row, unexpired, but hash mismatch → 401 "rejected" with the same
revocation effect; (4) otherwise (with the user row present, FK
`refresh_tokens.user_id → users.id`, and a fresh jti) the call returns a new
pair, and a second refresh with the same original token fails 401
"inactive". -/
theorem C1_refresh_rotation (s : Settings) (st : AuthStore) (tok : UserJwt)
    (now : Int) (access_jti refresh_jti : String)
    (hdec : decode_user_token tok "user_refresh" s = Except.ok tok)
    (hu : uniqueJti st.refresh_tokens) :
    (st.refresh_tokens.find? (isActiveFor tok.sub tok.jti) = none →
      refresh s st tok now access_jti refresh_jti
        = (Except.error (AppError.unauthorized "Token odswiezania jest nieaktywny."), st)) ∧
    (∀ entry, st.refresh_tokens.find? (isActiveFor tok.sub tok.jti) = some entry →
      entry.expires_at < now →
      (refresh s st tok now access_jti refresh_jti).1
        = Except.error (AppError.unauthorized "Token odswiezania wygasl.") ∧
      (refresh s st tok now access_jti refresh_jti).2.users = st.users ∧
      (refresh s st tok now access_jti refresh_jti).2.refresh_tokens.length
        = st.refresh_tokens.length ∧
      (refresh s st tok now access_jti refresh_jti).2.refresh_tokens.find?
        (isActiveFor tok.sub tok.jti) = none) ∧
    (∀ entry, st.refresh_tokens.find? (isActiveFor tok.sub tok.jti) = some entry →
      ¬ entry.expires_at < now →
      verify_secret tok.encode entry.token_hash = false →
      (refresh s st tok now access_jti refresh_jti).1
        = Except.error (AppError.unauthorized "Token odswiezania odrzucony.") ∧
      (refresh s st tok now access_jti refresh_jti).2.users = st.users ∧
      (refresh s st tok now access_jti refresh_jti).2.refresh_tokens.length
        = st.refresh_tokens.length ∧
      (refresh s st tok now access_jti refresh_jti).2.refresh_tokens.find?
        (isActiveFor tok.sub tok.jti) = none) ∧
    (∀ entry u, st.refresh_tokens.find? (isActiveFor tok.sub tok.jti) = some entry →
      ¬ entry.expires_at < now →
      verify_secret tok.encode entry.token_hash = true →
      findUser st tok.sub = some u →
      refresh_jti ≠ tok.jti →
      (∃ pair, (refresh s st tok now access_jti refresh_jti).1 = Except.ok pair) ∧
      (refresh s st tok now access_jti refresh_jti).2.users = st.users ∧
      (∀ now2 aj2 rj2,
        (refresh s (refresh s st tok now access_jti refresh_jti).2 tok now2 aj2 rj2).1
          = Except.error (AppError.unauthorized "Token odswiezania jest nieaktywny."))) := by
  refine ⟨?_, ?_, ?_, ?_⟩
  · intro h1
    unfold refresh
    rw [hdec]
    dsimp only
    rw [h1]
  · intro entry hfind hexp
    unfold refresh
    rw [hdec]
    dsimp only
    rw [hfind]
    dsimp only
    rw [if_pos hexp]
    refine ⟨rfl, rfl, revokeFirst_length _ _, ?_⟩
    exact revokeFirst_find_active_none tok.sub tok.jti _
      (fun x hx => ((isActiveFor_eq_true _ _ x).mp hx).imp id And.left)
      (fun x hx => hx) st.refresh_tokens hu
  · intro entry hfind hexp hver
    unfold refresh
    rw [hdec]
    dsimp only
    rw [hfind]
    dsimp only
    rw [if_neg hexp,
      if_pos (show (!verify_secret tok.encode entry.token_hash) = true by simp [hver])]
    refine ⟨rfl, rfl, revokeFirst_length _ _, ?_⟩
    exact revokeFirst_find_active_none tok.sub tok.jti _
      (fun x hx => ((isActiveFor_eq_true _ _ x).mp hx).imp id And.left)
      (fun x hx => hx) st.refresh_tokens hu
  · intro entry u hfind hexp hver huser hne
    unfold refresh
    rw [hdec]
    dsimp only
    rw [hfind]
    dsimp only
    rw [if_neg hexp,
      if_neg (show ¬ (!verify_secret tok.encode entry.token_hash) = true by simp [hver])]
    rw [findUser_set_tokens, huser]
    dsimp only [create_token_pair]
    refine ⟨⟨_, rfl⟩, rfl, ?_⟩
    intro now2 aj2 rj2
    have hrev : (revokeFirst st.refresh_tokens (isActiveFor tok.sub tok.jti)).find?
        (isActiveFor tok.sub tok.jti) = none :=
      revokeFirst_find_active_none tok.sub tok.jti _
        (fun x hx => ((isActiveFor_eq_true _ _ x).mp hx).imp id And.left)
        (fun x hx => hx) st.refresh_tokens hu
    rw [find?_append_none _ _ _ hrev]
    rw [List.find?_cons_of_neg _ (by simp [isActiveFor, hne])]
    rfl

/-- C1 witness: for the concrete store `exAuthStore`, the first refresh of
`exRefreshJwt` succeeds and an immediate second refresh with the same token
fails 401 "inactive". -/
theorem C1_refresh_rotation_witness :
    (refresh exSettings (refresh exSettings exAuthStore exRefreshJwt 0 "a2" "j2").2
        exRefreshJwt 0 "a3" "j3").1
      = Except.error (AppError.unauthorized "Token odswiezania jest nieaktywny.") :=
  ((C1_refresh_rotation exSettings exAuthStore exRefreshJwt 0 "a2" "j2"
      (by decide) (by decide)).2.2.2 exEntry exUser (by decide) (by decide)
      (by decide) (by decide) (by decide)).2.2 0 "a3" "j3"

/-- C6 counterexample: logging out a refresh token whose ledger row is
already revoked succeeds (`logout` looks the row up without filtering on
`revoked`), instead of returning AlreadyLoggedOut as the claim states. -/
theorem C6_counterexample :
    exRevokedEntry.revoked = true ∧
    (logout exSettings { users := [exUser], refresh_tokens := [exRevokedEntry] }
        exRefreshJwt exUser).1 = Except.ok () := by
  decide

/-- C6 (amended): `logout` fails `Forbidden` if the token's subject is not
the caller; it looks up the row for `(user, jti)` WITHOUT filtering on
`revoked`: if any row exists — revoked or not — it marks it revoked and
succeeds (so logging out an already-revoked token succeeds idempotently);
only when no row at all exists does it fail AlreadyLoggedOut. -/
theorem C6_logout_behavior (s : Settings) (st : AuthStore) (tok : UserJwt)
    (user : User)
    (hdec : decode_user_token tok "user_refresh" s = Except.ok tok)
    (hu : uniqueJti st.refresh_tokens) :
    (tok.sub ≠ user.id →
      logout s st tok user
        = (Except.error (AppError.forbidden "Token nie nalezy do uzytkownika."), st)) ∧
    (tok.sub = user.id →
      st.refresh_tokens.find?
        (fun r => r.user_id == user.id && r.token_jti == tok.jti) = none →
      logout s st tok user
        = (Except.error (AppError.badRequest "Token zostal juz wylogowany."), st)) ∧
    (∀ r, tok.sub = user.id →
      st.refresh_tokens.find?
        (fun r => r.user_id == user.id && r.token_jti == tok.jti) = some r →
      (logout s st tok user).1 = Except.ok () ∧
      (logout s st tok user).2.users = st.users ∧
      (logout s st tok user).2.refresh_tokens.length = st.refresh_tokens.length ∧
      (logout s st tok user).2.refresh_tokens.find?
        (isActiveFor user.id tok.jti) = none) := by
  refine ⟨?_, ?_, ?_⟩
  · intro hsub
    unfold logout
    rw [hdec]
    dsimp only
    rw [if_pos hsub]
  · intro hsub hfind
    unfold logout
    rw [hdec]
    dsimp only
    rw [if_neg (by simp [hsub]), hfind]
  · intro r hsub hfind
    unfold logout
    rw [hdec]
    dsimp only
    rw [if_neg (by simp [hsub]), hfind]
    refine ⟨rfl, rfl, revokeFirst_length _ _, ?_⟩
    exact revokeFirst_find_active_none user.id tok.jti _
      (fun x hx => by
        simp only [Bool.and_eq_true, beq_iff_eq] at hx
        exact ⟨hx.1, hx.2⟩)
      (fun x hx => by
        have := (isActiveFor_eq_true _ _ x).mp hx
        simp [this.1, this.2.1])
      st.refresh_tokens hu

/-- C6 witness: subject mismatch is rejected `Forbidden` (a user with id 2
presenting `exUser`'s token), and an existing row logs out successfully. -/
theorem C6_logout_behavior_witness :
    logout exSettings exAuthStore exRefreshJwt
        { id := 2, email := "b@x.com", password_hash := hash_secret "pw",
          role := UserRole.user }
      = (Except.error (AppError.forbidden "Token nie nalezy do uzytkownika."),
         exAuthStore) :=
  (C6_logout_behavior exSettings exAuthStore exRefreshJwt
      { id := 2, email := "b@x.com", password_hash := hash_secret "pw",
        role := UserRole.user }
      (by decide) (by decide)).1 (by decide)

/-- C9 counterexample: in a store whose ledger row for the token is active
and valid but whose user row is absent, `refresh` surfaces 404 NotFound —
not `Unauthorized` — refuting the claim that the result is two-valued. -/
theorem C9_counterexample :
    (refresh exSettings exOrphanStore exRefreshJwt 0 "a2" "j2").1
      = Except.error (AppError.notFound "Uzytkownik nie istnieje.") := by
  decide

/-- C9 (amended): `refresh` surfaces a fresh pair or `Unauthorized`, except
in one corner: when the ledger row for `(sub, jti)` is active and valid but
the user row itself is missing, it surfaces `NotFound` (404). -/
theorem C9_refresh_result_kinds (s : Settings) (st : AuthStore) (tok : UserJwt)
    (now : Int) (access_jti refresh_jti : String) :
    (∃ pair, (refresh s st tok now access_jti refresh_jti).1 = Except.ok pair) ∨
    (∃ d, (refresh s st tok now access_jti refresh_jti).1
        = Except.error (AppError.unauthorized d)) ∨
    ((refresh s st tok now access_jti refresh_jti).1
        = Except.error (AppError.notFound "Uzytkownik nie istnieje.") ∧
      findUser st tok.sub = none) := by
  unfold refresh
  cases hdec : decode_user_token tok "user_refresh" s with
  | error e =>
    exact Or.inr (Or.inl ⟨e, rfl⟩)
  | ok t =>
    dsimp only
    cases hfind : st.refresh_tokens.find? (isActiveFor tok.sub tok.jti) with
    | none =>
      exact Or.inr (Or.inl ⟨_, rfl⟩)
    | some entry =>
      dsimp only
      by_cases hexp : entry.expires_at < now
      · rw [if_pos hexp]
        exact Or.inr (Or.inl ⟨_, rfl⟩)
      · rw [if_neg hexp]
        by_cases hver : (!verify_secret tok.encode entry.token_hash) = true
        · rw [if_pos hver]
          exact Or.inr (Or.inl ⟨_, rfl⟩)
        · rw [if_neg hver]
          rw [findUser_set_tokens]
          cases huser : findUser st tok.sub with
          | none =>
            exact Or.inr (Or.inr ⟨rfl, rfl⟩)
          | some u =>
            exact Or.inl ⟨_, rfl⟩

/-- C10 witness: with a store that always raises, logging an event returns
normally and leaves the event log empty. -/
theorem C10_logging_never_propagates_witness :
    SecurityLogger.log (fun _ => Except.error "db unavailable") []
      { actor_type := "user", actor_id := none, event_type := "login",
        status := SecurityEventStatus.denied, detail := none } = [] :=
  C10_logging_never_propagates.1 (fun _ => Except.error "db unavailable") []
    { actor_type := "user", actor_id := none, event_type := "login",
      status := SecurityEventStatus.denied, detail := none }
    "db unavailable" rfl

end IoTSpec
